import Mathlib

/-!
Verification of the lease-web client (`src/app/page.tsx`, `src/app/layout.tsx`)
against its specification.  JavaScript numbers are embedded as exact rationals
(ℚ); `Number.prototype.toFixed` is modelled by its ECMAScript mathematical
definition (the integer n minimising the distance of n / 10^f to the magnitude,
ties resolved to the larger n).  Strings are Lean `String`s; the DOM and fetch
are modelled by explicit state passing over a `UIState` record and a
`FetchOutcome` value.
-/

namespace LeaseWeb

/-- The `Status` union type of `page.tsx`. -/
inductive Status where
  | idle
  | uploading
  | done
  | error
deriving DecidableEq, Repr

/-- The `ContractSummary` interface of `page.tsx` (lines 26-34). -/
structure ContractSummary where
  customer : String
  merchant_id : String
  receivable : ℚ
  income : ℚ
  bank_matched : ℚ
  invoice_matched : ℚ
  notes : String
deriving DecidableEq, Repr

/-- The `files` member of `CalcResult` (lines 41-45): three base64 workbook streams. -/
structure CalcFiles where
  lease : String
  single : String
  income : String
deriving DecidableEq, Repr

/-- The `CalcResult` interface of `page.tsx` (lines 36-46). -/
structure CalcResult where
  summary : List ContractSummary
  total_receivable : ℚ
  total_income : ℚ
  contract_count : ℕ
  files : CalcFiles
deriving DecidableEq, Repr

/-- Two-digit zero padding, as used for the cent part of `toFixed(2)`. -/
def pad2 (n : ℕ) : String :=
  if n < 10 then "0" ++ toString n else toString n

/-- Decimal rendering of a nonnegative cent count: integer part, a dot, two cent digits. -/
def decimalString (cents : ℕ) : String :=
  toString (cents / 100) ++ "." ++ pad2 (cents % 100)

/-- `n.toFixed(2)` (ECMAScript §Number.prototype.toFixed, embedded over ℚ): the sign is
split off first, then the magnitude is rendered with the cent count chosen as the
integer closest to 100·|n|, ties to the larger, i.e. ⌊100·|n| + 1/2⌋. -/
def toFixed2 (x : ℚ) : String :=
  (if x < 0 then "-" else "") ++
    decimalString ((Rat.floor (100 * (if x < 0 then -x else x) + 1/2)).toNat)

/-- Comma grouping applied to the reversed digit list of the integer part:
the regex of `formatMoney` inserts a comma before every group of three digits
counted from the decimal point. -/
def group3 : List Char → List Char
  | a :: b :: c :: d :: rest => a :: b :: c :: ',' :: group3 (d :: rest)
  | l => l

/-- The `.replace(/\B(?=(\d{3})+(?!\d))/g, ",")` step of `formatMoney` (line 50), on the
strings `toFixed2` produces (an optional sign, digits, a dot, exactly two digits):
commas are inserted into the integer part every three digits from the right, never
directly after the sign. -/
def groupThousands (s : String) : String :=
  let p : Bool × List Char :=
    match s.data with
    | '-' :: t => (true, t)
    | t => (false, t)
  let ip := p.2.takeWhile (fun c => c != '.')
  let fp := p.2.dropWhile (fun c => c != '.')
  String.mk ((if p.1 then ['-'] else []) ++ (group3 ip.reverse).reverse ++ fp)

/-- `formatMoney` (`page.tsx` lines 48-51).  The `n == null || isNaN(n)` guard has no
inhabitant in the exact-rational embedding, so the function is total on ℚ. -/
def formatMoney (n : ℚ) : String :=
  "¥" ++ groupThousands (toFixed2 n)

/-- The cent count `formatMoney` displays for a nonnegative amount. -/
def displayedCents (x : ℚ) : ℤ :=
  Rat.floor (100 * x + 1/2)

/-- An uploaded file, identified by its name (the only attribute `page.tsx` inspects). -/
structure FileInfo where
  name : String
deriving DecidableEq, Repr

/-- The React state of the `Home` component (`page.tsx` lines 85-91). -/
structure UIState where
  file : Option FileInfo
  startMonth : String
  endMonth : String
  status : Status
  result : Option CalcResult
  errorMsg : String
  isDragging : Bool
deriving DecidableEq, Repr

/-- JavaScript `String.prototype.endsWith`, over character sequences. -/
def jsEndsWith (s suffix : String) : Bool :=
  suffix.data.isSuffixOf s.data

/-- `handleFileSelect` (`page.tsx` lines 94-104): reject non-`.xlsx` names with an error
status, otherwise store the file, reset status and error, and clear the result. -/
def handleFileSelect (s : UIState) (f : FileInfo) : UIState :=
  if !(jsEndsWith f.name ".xlsx") then
    { s with errorMsg := "请上传 .xlsx 格式的文件", status := Status.error }
  else
    { s with file := some f, status := Status.idle, errorMsg := "", result := none }

/-- The multipart form body built by `handleSubmit` (`page.tsx` lines 132-135). -/
structure FormProto where
  file : FileInfo
  start : String
  end_ : String
deriving DecidableEq, Repr

/-- The JSON body of a `/api/calculate` response, as the client consumes it: an
optional `error` member and the `CalcResult` payload read on the success path. -/
structure RespBody where
  error : Option String
  payload : CalcResult
deriving DecidableEq, Repr

/-- Outcome of the `fetch` in `handleSubmit`: either the promise chain throws
(network error or non-JSON body) or a response arrives with its `ok` flag,
HTTP status code, and parsed JSON body. -/
inductive FetchOutcome where
  | throws (msg : String)
  | response (ok : Bool) (statusCode : ℕ) (body : RespBody)
deriving DecidableEq, Repr

/-- JavaScript truthiness of `data.error`: present and a non-empty string. -/
def errTruthy (b : RespBody) : Bool :=
  match b.error with
  | some e => e != ""
  | none => false

/-- The fallback failure message of `page.tsx` line 146. -/
def fallbackMsg (code : ℕ) : String :=
  "请求失败 (" ++ toString code ++ ")"

/-- The message shown on a failed response: `data.error || fallback` (line 146). -/
def errorText (b : RespBody) (code : ℕ) : String :=
  match b.error with
  | some e => if e = "" then fallbackMsg code else e
  | none => fallbackMsg code

/-- The form data `handleSubmit` sends, when it sends one: `none` exactly when a
guard at lines 117-126 fires; otherwise the file plus `startMonth + "-01"` and
`endMonth + "-01"` (lines 132-135). -/
def submitFormData (s : UIState) : Option FormProto :=
  match s.file with
  | none => none
  | some f =>
    if s.startMonth = "" ∨ s.endMonth = "" then none
    else some { file := f, start := s.startMonth ++ "-01", end_ := s.endMonth ++ "-01" }

/-- `handleSubmit` (`page.tsx` lines 116-157) as a state transformer: the guards, the
pre-fetch reset (`uploading`, clear error, clear result), and the handling of the
fetch outcome. -/
def handleSubmit (s : UIState) (outcome : FetchOutcome) : UIState :=
  match s.file with
  | none => { s with errorMsg := "请先选择 Excel 文件", status := Status.error }
  | some _ =>
    if s.startMonth = "" ∨ s.endMonth = "" then
      { s with errorMsg := "请填写起始月和结束月", status := Status.error }
    else
      match outcome with
      | FetchOutcome.throws msg =>
          { s with status := Status.error, result := none,
                   errorMsg := "网络错误，请稍后重试。" ++ msg }
      | FetchOutcome.response ok code body =>
          if !ok || errTruthy body then
            { s with status := Status.error, result := none,
                     errorMsg := errorText body code }
          else
            { s with status := Status.done, result := some body.payload,
                     errorMsg := "" }

/-- One rendered row of the per-contract detail table (`page.tsx` lines 382-391):
the seven cells, in column order. -/
structure RenderedRow where
  customer : String
  merchant_id : String
  receivable : String
  income : String
  bank_matched : String
  invoice_matched : String
  notes : String
deriving DecidableEq, Repr

/-- Rendering of one summary row: text cells verbatim, money cells through
`formatMoney`, and `row.notes || ""` for the notes cell. -/
def renderRow (row : ContractSummary) : RenderedRow :=
  { customer := row.customer
    merchant_id := row.merchant_id
    receivable := formatMoney row.receivable
    income := formatMoney row.income
    bank_matched := formatMoney row.bank_matched
    invoice_matched := formatMoney row.invoice_matched
    notes := if row.notes = "" then "" else row.notes }

/-- The table body `result.summary.map((row, i) => ...)` (`page.tsx` line 382). -/
def renderSummaryTable (rows : List ContractSummary) : List RenderedRow :=
  rows.map renderRow

/-- The three summary cards (`page.tsx` lines 315-328). -/
structure SummaryCards where
  contractCountText : String
  totalReceivableText : String
  totalIncomeText : String
deriving DecidableEq, Repr

/-- Everything the results block displays for a `CalcResult`. -/
structure ResultsView where
  cards : SummaryCards
  downloads : List (String × String)
  table : Option (List RenderedRow)
deriving DecidableEq, Repr

/-- The results block (`page.tsx` lines 310-399): cards, the three download buttons
with their base64 sources and file names, and the detail table — the latter only
when `result.summary.length > 0` (line 363). -/
def renderResults (r : CalcResult) : ResultsView :=
  { cards :=
      { contractCountText := toString r.contract_count
        totalReceivableText := formatMoney r.total_receivable
        totalIncomeText := formatMoney r.total_income }
    downloads :=
      [(r.files.lease, "lease.xlsx"), (r.files.single, "single.xlsx"),
        (r.files.income, "income.xlsx")]
    table :=
      if r.summary.length > 0 then some (renderSummaryTable r.summary) else none }

/-- The guard `status === "done" && result && ...` of `page.tsx` line 310: the results
block is rendered exactly when the status is `done` and a result is present. -/
def renderPage (s : UIState) : Option ResultsView :=
  match s.status, s.result with
  | Status.done, some r => some (renderResults r)
  | _, _ => none

/-- `String(n).padStart(2, "0")` for the month strings of `getDefaultDates`. -/
def padStart2 (s : String) : String :=
  if s.length = 0 then "00"
  else if s.length = 1 then "0" ++ s
  else s

/-- A JavaScript `Date` as `getDefaultDates` reads it: `getFullYear()` and the
zero-based `getMonth()`. -/
structure JSDate where
  year : ℕ
  month0 : ℕ
deriving DecidableEq, Repr

/-- `getDefaultDates` (`page.tsx` lines 71-81).  `endMonthUnused` mirrors the
`endMonth` local computed on line 76 that the function never uses: the returned
`end` string is built from the line-79 expression instead. -/
def getDefaultDates (now : JSDate) : String × String :=
  let startYear := now.year
  let startMonth := padStart2 (toString (now.month0 + 1))
  let endYear := if now.month0 ≥ 11 then now.year + 1 else now.year
  let _endMonthUnused := padStart2 (toString ((now.month0 + 1) % 12 + 1))
  let start := toString startYear ++ "-" ++ startMonth
  let stop := toString endYear ++ "-" ++
    padStart2 (toString (if now.month0 + 2 > 12 then 1 else now.month0 + 2))
  (start, stop)

/-- Canonical rendering of a year-month pair in the `YYYY-MM` shape the month
inputs produce. -/
def ymString (y m : ℕ) : String :=
  toString y ++ "-" ++ padStart2 (toString m)

/-- A string is a well-formed `YYYY-MM` value: the canonical rendering of a
four-digit year and a month between 01 and 12. -/
def isYearMonth (s : String) : Prop :=
  ∃ y m : ℕ, 1 ≤ m ∧ m ≤ 12 ∧ 1000 ≤ y ∧ y ≤ 9999 ∧ s = ymString y m

/-- A string is a first-of-month ISO date: a well-formed `YYYY-MM` value with
`-01` appended. -/
def isFirstOfMonthISO (s : String) : Prop :=
  ∃ y m : ℕ, 1 ≤ m ∧ m ≤ 12 ∧ 1000 ≤ y ∧ y ≤ 9999 ∧ s = ymString y m ++ "-01"

/-- Modelled from the spec: the engine (`lib/lease_calculator.py`, not under `src/`)
treats the requested `[start_month, end_month]` range with both ends inclusive, so a
month (linearised as a month index) belongs to the range exactly when it lies between
the two bounds inclusively. -/
def monthInRange (m a b : ℕ) : Prop :=
  a ≤ m ∧ m ≤ b

/-- Value of one character of the standard base64 alphabet, `none` outside it. -/
def b64Index (c : Char) : Option ℕ :=
  if 'A' ≤ c ∧ c ≤ 'Z' then some (c.toNat - 'A'.toNat)
  else if 'a' ≤ c ∧ c ≤ 'z' then some (c.toNat - 'a'.toNat + 26)
  else if '0' ≤ c ∧ c ≤ '9' then some (c.toNat - '0'.toNat + 52)
  else if c = '+' then some 62
  else if c = '/' then some 63
  else none

/-- Decode a list of 6-bit values into bytes, four values to three bytes, with the
final group allowed to hold two or three values; a single leftover value is invalid. -/
def b64Groups : List ℕ → Option (List ℕ)
  | [] => some []
  | [_] => none
  | [a, b] => some [a * 4 + b / 16]
  | [a, b, c] => some [a * 4 + b / 16, b % 16 * 16 + c / 4]
  | a :: b :: c :: d :: rest =>
    match b64Groups rest with
    | none => none
    | some bs =>
      some ((a * 4 + b / 16) :: (b % 16 * 16 + c / 4) :: (c % 4 * 64 + d) :: bs)

/-- Trailing `=` padding characters are dropped before decoding. -/
def stripPadding (cs : List Char) : List Char :=
  (cs.reverse.dropWhile (fun c => c == '=')).reverse

/-- The browser `atob` builtin used by `downloadBase64` (`page.tsx` line 54): base64
decoding to a binary string whose characters are the decoded bytes. -/
def atob (s : String) : Option String :=
  match (stripPadding s.data).mapM b64Index with
  | none => none
  | some vals =>
    match b64Groups vals with
    | none => none
    | some bytes => some (String.mk (bytes.map Char.ofNat))

/-- The MIME type given to the `Blob` in `downloadBase64` (`page.tsx` line 60). -/
def xlsxMime : String :=
  "application/vnd.openxmlformats-officedocument.spreadsheetml.sheet"

/-- The blob that `downloadBase64` saves. -/
structure BlobModel where
  bytes : List ℕ
  mime : String
deriving DecidableEq, Repr

/-- `downloadBase64` (`page.tsx` lines 53-68) up to the browser save: decode the
base64 string, fill a byte array with `binary.charCodeAt(i)` for each index, and wrap
it in an xlsx-typed blob saved under the given file name. -/
def downloadBase64 (b64 : String) (filename : String) : Option (BlobModel × String) :=
  match atob b64 with
  | none => none
  | some binary =>
    some ({ bytes := binary.data.map Char.toNat, mime := xlsxMime }, filename)

/-- Modelled from the spec: a parsed contract of the calculation engine
(`lib/lease_calculator.py`, not under `src/`).  Dates are day ordinals, the expiry
day is inclusive, and the annual rent amounts are the ordered non-empty sequence of
supplied rent-year entries (spec §3). -/
structure Contract where
  customer : String
  merchant_id : String
  delivery : ℕ
  expiry : ℕ
  free_rent_days : ℕ
  rents : List ℚ
deriving DecidableEq, Repr

/-- Modelled from the spec: the rent amount for a zero-based contract-year index,
with months beyond the last supplied year reusing the last supplied year's rate
(spec §4.2 fallback). -/
def rentForYear (rents : List ℚ) (k : ℕ) : ℚ :=
  rents.getD k (rents.getLastD 0)

/-- Modelled from the spec: the contract-year containing a day, anchored to the
delivery date — each contract-year boundary is `delivery + k × 365` days (spec §4.2). -/
def contractYear (c : Contract) (d : ℕ) : ℕ :=
  (d - c.delivery) / 365

/-- Modelled from the spec: `total_lease_days = expiry − delivery + 1` (spec §4.4). -/
def totalLeaseDays (c : Contract) : ℕ :=
  c.expiry - c.delivery + 1

/-- Modelled from the spec: the per-day income contribution
`rent_amount_for(contract_year_of(day)) / 365`, with no free-rent carve-out
(spec §4.4: amortization includes free-rent days). -/
def dailyIncome (c : Contract) (d : ℕ) : ℚ :=
  rentForYear c.rents (contractYear c d) / 365

/-- Modelled from the spec: `total_contract_value`, the sum of the per-day income
contribution over every day of the full lease span (spec §4.4). -/
def totalContractValue (c : Contract) : ℚ :=
  (((List.range (totalLeaseDays c)).map (fun i => dailyIncome c (c.delivery + i))).sum)

/-- Modelled from the spec: `daily_income_rate = total_contract_value /
total_lease_days` (spec §4.4). -/
def dailyIncomeRate (c : Contract) : ℚ :=
  totalContractValue c / (totalLeaseDays c : ℚ)

/-- Modelled from the spec: the income total over the full lease term — the month
cells `daily_income_rate × days-of-month-in-term` summed over a range covering the
whole term, i.e. the rate times `total_lease_days` (spec §4.4). -/
def totalIncomeFullTerm (c : Contract) : ℚ :=
  dailyIncomeRate c * (totalLeaseDays c : ℚ)

/-- A minimal `CalcResult`, used to instantiate the theorems below. -/
def sampleResult : CalcResult :=
  { summary := []
    total_receivable := 0
    total_income := 0
    contract_count := 0
    files := { lease := "", single := "", income := "" } }

/-- A sample summary row, used to instantiate the theorems below. -/
def sampleRow : ContractSummary :=
  { customer := "北京lbcy餐饮管理有限公司"
    merchant_id := "B1-01c"
    receivable := 24600
    income := 24600
    bank_matched := 0
    invoice_matched := 0
    notes := "租期超出填写租金年数" }

/-- A `CalcResult` with one summary row, used to instantiate the theorems below. -/
def sampleResultWithRow : CalcResult :=
  { sampleResult with summary := [sampleRow], contract_count := 1 }

/-- A UI state that passes both submit guards, used to instantiate the theorems below. -/
def readyState : UIState :=
  { file := some { name := "data.xlsx" }
    startMonth := "2025-01"
    endMonth := "2025-02"
    status := Status.idle
    result := none
    errorMsg := ""
    isDragging := false }

/-- A response body that carries an `error` member holding the empty string. -/
def emptyErrorBody : RespBody :=
  { error := some "", payload := sampleResult }

/-- A response body with no `error` member. -/
def plainBody : RespBody :=
  { error := none, payload := sampleResult }

/-- A two-year contract with no free rent (delivery day 0, expiry day 729,
annual rents 12000 and 12600), used to instantiate the theorems below. -/
def contractA : Contract :=
  { customer := "甲"
    merchant_id := "B1-01"
    delivery := 0
    expiry := 729
    free_rent_days := 0
    rents := [12000, 12600] }

/-- The same contract as `contractA` but with 30 free-rent days. -/
def contractB : Contract :=
  { contractA with free_rent_days := 30 }

/-- Batteries' executable `Rat.floor` agrees with the `FloorRing` floor on ℚ. -/
theorem rat_floor_eq_int_floor (q : ℚ) : q.floor = ⌊q⌋ := by
  rw [Rat.floor_def', Rat.floor_def]

/-- Claim C2: every raw monetary amount shown at a display point is rendered by
`formatMoney` as the amount rounded to 2 decimals with round-half-up — the displayed
cent count is the integer `c` with `c - 1/2 ≤ 100·x < c + 1/2` — and in particular a
raw amount of 1234.565 displays as ¥1,234.57. -/
theorem C2_formatMoney_rounds_half_up :
    (∀ x : ℚ, 0 ≤ x →
      formatMoney x = "¥" ++ groupThousands (decimalString (displayedCents x).toNat) ∧
      (displayedCents x : ℚ) - 1/2 ≤ 100 * x ∧
      100 * x < (displayedCents x : ℚ) + 1/2) ∧
    formatMoney (1234.565 : ℚ) = "¥1,234.57" := by
  constructor
  · intro x h
    refine ⟨?_, ?_, ?_⟩
    · unfold formatMoney toFixed2 displayedCents
      rw [if_neg (not_lt.2 h), if_neg (not_lt.2 h)]
      simp
    · unfold displayedCents
      rw [rat_floor_eq_int_floor]
      have h1 := Int.floor_le (100 * x + 1/2 : ℚ)
      linarith
    · unfold displayedCents
      rw [rat_floor_eq_int_floor]
      have h2 := Int.lt_floor_add_one (100 * x + 1/2 : ℚ)
      linarith
  · have e1 : toFixed2 (1234.565 : ℚ) = "1234.57" := by
      unfold toFixed2
      rw [if_neg (by norm_num), if_neg (by norm_num)]
      have h : (100 * (1234.565 : ℚ) + 1/2) = ((123457 : ℤ) : ℚ) := by norm_num
      rw [h, rat_floor_eq_int_floor, Int.floor_intCast]
      rfl
    unfold formatMoney
    rw [e1]
    rfl

/-- Witness for C2 at the concrete amount 2.005. -/
theorem C2_formatMoney_rounds_half_up_witness :
    0 ≤ (2.005 : ℚ) ∧
    (formatMoney (2.005 : ℚ) =
        "¥" ++ groupThousands (decimalString (displayedCents (2.005 : ℚ)).toNat) ∧
      (displayedCents (2.005 : ℚ) : ℚ) - 1/2 ≤ 100 * (2.005 : ℚ) ∧
      100 * (2.005 : ℚ) < (displayedCents (2.005 : ℚ) : ℚ) + 1/2) :=
  ⟨by norm_num, C2_formatMoney_rounds_half_up.1 (2.005 : ℚ) (by norm_num)⟩

/-- Claim C10: for every current date, `getDefaultDates` returns the current month as
start and the immediately following calendar month as end (December wrapping to month
01 of the next year), and both values are well-formed `YYYY-MM` strings with a month
between 01 and 12; the end month index is exactly one past the start month index. -/
theorem C10_getDefaultDates (now : JSDate) (hm : now.month0 ≤ 11)
    (hy1 : 1000 ≤ now.year) (hy2 : now.year ≤ 9998) :
    (getDefaultDates now).1 = ymString now.year (now.month0 + 1) ∧
    (getDefaultDates now).2 =
      ymString (if now.month0 = 11 then now.year + 1 else now.year)
        (if now.month0 = 11 then 1 else now.month0 + 2) ∧
    isYearMonth (getDefaultDates now).1 ∧
    isYearMonth (getDefaultDates now).2 ∧
    12 * (if now.month0 = 11 then now.year + 1 else now.year) +
        ((if now.month0 = 11 then 1 else now.month0 + 2) - 1) =
      12 * now.year + (now.month0 + 1 - 1) + 1 := by
  have h1 : (getDefaultDates now).1 = ymString now.year (now.month0 + 1) := by
    simp [getDefaultDates, ymString]
  have h2 : (getDefaultDates now).2 =
      ymString (if now.month0 = 11 then now.year + 1 else now.year)
        (if now.month0 = 11 then 1 else now.month0 + 2) := by
    by_cases h : now.month0 = 11
    · simp [getDefaultDates, ymString, h]
    · have ha : ¬ (now.month0 ≥ 11) := by omega
      have hb : ¬ (now.month0 + 2 > 12) := by omega
      simp [getDefaultDates, ymString, h, ha, hb]
  refine ⟨h1, h2,
    ⟨now.year, now.month0 + 1, by omega, by omega, hy1, by omega, h1⟩,
    ⟨if now.month0 = 11 then now.year + 1 else now.year,
      if now.month0 = 11 then 1 else now.month0 + 2,
      by split <;> omega, by split <;> omega, by split <;> omega, by split <;> omega, h2⟩,
    by by_cases h : now.month0 = 11 <;> simp [h] <;> omega⟩

/-- Witness for C10 at a December date, exercising the year wrap. -/
theorem C10_getDefaultDates_witness :
    (⟨2025, 11⟩ : JSDate).month0 ≤ 11 ∧ 1000 ≤ (⟨2025, 11⟩ : JSDate).year ∧
      (⟨2025, 11⟩ : JSDate).year ≤ 9998 ∧
    ((getDefaultDates ⟨2025, 11⟩).1 = ymString 2025 12 ∧
      (getDefaultDates ⟨2025, 11⟩).2 = ymString 2026 1) := by
  have h := C10_getDefaultDates ⟨2025, 11⟩ (by decide) (by decide) (by decide)
  exact ⟨by decide, by decide, by decide, h.1, by simpa using h.2.1⟩

/-- Claim C8: `handleFileSelect` leaves the stored file unchanged and reports an error
for every name not ending in `.xlsx`; for every name ending in `.xlsx` it stores the
file, resets the status to idle, clears the message, and clears the result. -/
theorem C8_handleFileSelect (s : UIState) (f : FileInfo) :
    (jsEndsWith f.name ".xlsx" = false →
      handleFileSelect s f =
        { s with errorMsg := "请上传 .xlsx 格式的文件", status := Status.error } ∧
      (handleFileSelect s f).file = s.file ∧
      (handleFileSelect s f).status = Status.error ∧
      (handleFileSelect s f).errorMsg = "请上传 .xlsx 格式的文件") ∧
    (jsEndsWith f.name ".xlsx" = true →
      handleFileSelect s f =
        { s with file := some f, status := Status.idle, errorMsg := "", result := none }) := by
  constructor
  · intro h
    simp [handleFileSelect, h]
  · intro h
    simp [handleFileSelect, h]

/-- Witness for C8 at a rejected `.csv` name and an accepted `.xlsx` name. -/
theorem C8_handleFileSelect_witness :
    (jsEndsWith "报表.csv" ".xlsx" = false ∧
      (handleFileSelect readyState ⟨"报表.csv"⟩).file = readyState.file ∧
      (handleFileSelect readyState ⟨"报表.csv"⟩).status = Status.error) ∧
    (jsEndsWith "报表.xlsx" ".xlsx" = true ∧
      handleFileSelect readyState ⟨"报表.xlsx"⟩ =
        { readyState with file := some ⟨"报表.xlsx"⟩, status := Status.idle,
                          errorMsg := "", result := none }) := by
  have hbad : jsEndsWith "报表.csv" ".xlsx" = false := by decide
  have hgood : jsEndsWith "报表.xlsx" ".xlsx" = true := by decide
  have h1 := (C8_handleFileSelect readyState ⟨"报表.csv"⟩).1 hbad
  have h2 := (C8_handleFileSelect readyState ⟨"报表.xlsx"⟩).2 hgood
  exact ⟨⟨hbad, h1.2.1, h1.2.2.1⟩, ⟨hgood, h2⟩⟩

/-- Claim C9: with no file selected, or with an empty start or end month,
`handleSubmit` sends no request and sets an error status with the corresponding
message; a request is built exactly when a file and both months are present. -/
theorem C9_submit_guards (s : UIState) :
    (s.file = none →
      submitFormData s = none ∧
      ∀ o, handleSubmit s o =
        { s with errorMsg := "请先选择 Excel 文件", status := Status.error }) ∧
    (s.file.isSome = true → (s.startMonth = "" ∨ s.endMonth = "") →
      submitFormData s = none ∧
      ∀ o, handleSubmit s o =
        { s with errorMsg := "请填写起始月和结束月", status := Status.error }) ∧
    ((∃ fd, submitFormData s = some fd) ↔
      s.file.isSome = true ∧ s.startMonth ≠ "" ∧ s.endMonth ≠ "") := by
  refine ⟨?_, ?_, ?_⟩
  · intro h
    simp [submitFormData, handleSubmit, h]
  · intro hf hmonth
    obtain ⟨f, hf'⟩ := Option.isSome_iff_exists.1 hf
    constructor
    · simp [submitFormData, hf', hmonth]
    · intro o
      simp [handleSubmit, hf', hmonth]
  · constructor
    · rintro ⟨fd, hfd⟩
      cases hf' : s.file with
      | none => simp [submitFormData, hf'] at hfd
      | some f =>
        rw [submitFormData] at hfd
        rw [hf'] at hfd
        by_cases hm : s.startMonth = "" ∨ s.endMonth = ""
        · simp [hm] at hfd
        · push_neg at hm
          exact ⟨by simp [hf'], hm.1, hm.2⟩
    · rintro ⟨hf, hs, he⟩
      obtain ⟨f, hf'⟩ := Option.isSome_iff_exists.1 hf
      refine ⟨{ file := f, start := s.startMonth ++ "-01", end_ := s.endMonth ++ "-01" }, ?_⟩
      rw [submitFormData]
      rw [hf']
      simp [hs, he]

/-- Witness for C9 at a state with no file selected. -/
theorem C9_submit_guards_witness :
    ({ readyState with file := none } : UIState).file = none ∧
    (submitFormData { readyState with file := none } = none ∧
      ∀ o, handleSubmit { readyState with file := none } o =
        { ({ readyState with file := none } : UIState) with
            errorMsg := "请先选择 Excel 文件", status := Status.error }) :=
  ⟨rfl, (C9_submit_guards { readyState with file := none }).1 rfl⟩

/-- Claim C5: every submitted request carries `start` and `end` fields built by
appending `-01` to the chosen `YYYY-MM` month values — first-of-month ISO dates —
and, per the engine's inclusive range treatment, both endpoints of the requested
range belong to the range. -/
theorem C5_form_dates (s : UIState) (fd : FormProto)
    (h : submitFormData s = some fd) :
    fd.start = s.startMonth ++ "-01" ∧
    fd.end_ = s.endMonth ++ "-01" ∧
    (isYearMonth s.startMonth → isFirstOfMonthISO fd.start) ∧
    (isYearMonth s.endMonth → isFirstOfMonthISO fd.end_) ∧
    (∀ a b : ℕ, a ≤ b → monthInRange a a b ∧ monthInRange b a b) := by
  have hse : fd.start = s.startMonth ++ "-01" ∧ fd.end_ = s.endMonth ++ "-01" := by
    cases hf' : s.file with
    | none => simp [submitFormData, hf'] at h
    | some f =>
      rw [submitFormData] at h
      rw [hf'] at h
      by_cases hm : s.startMonth = "" ∨ s.endMonth = ""
      · simp [hm] at h
      · simp [hm] at h
        exact ⟨by rw [← h], by rw [← h]⟩
  refine ⟨hse.1, hse.2, ?_, ?_, ?_⟩
  · rintro ⟨y, m, h1, h2, h3, h4, h5⟩
    exact ⟨y, m, h1, h2, h3, h4, by rw [hse.1, h5]⟩
  · rintro ⟨y, m, h1, h2, h3, h4, h5⟩
    exact ⟨y, m, h1, h2, h3, h4, by rw [hse.2, h5]⟩
  · intro a b hab
    exact ⟨⟨le_refl a, hab⟩, ⟨hab, le_refl b⟩⟩

/-- Witness for C5 at the ready state with months 2025-01 and 2025-02. -/
theorem C5_form_dates_witness :
    submitFormData readyState =
      some { file := ⟨"data.xlsx"⟩, start := "2025-01" ++ "-01", end_ := "2025-02" ++ "-01" } ∧
    isFirstOfMonthISO ("2025-01" ++ "-01") := by
  have hsub : submitFormData readyState =
      some { file := ⟨"data.xlsx"⟩, start := "2025-01" ++ "-01", end_ := "2025-02" ++ "-01" } := by
    simp [submitFormData, readyState]
  have h := C5_form_dates readyState _ hsub
  have hym : isYearMonth ("2025-01") :=
    ⟨2025, 1, by omega, by omega, by omega, by omega, by decide⟩
  exact ⟨hsub, by simpa [readyState] using h.2.2.1 hym⟩

/-- Counterexample to claim C4 as stated: an ok-status response whose body carries an
`error` member holding the empty string is treated as success — the stored result
becomes non-null and the results block renders — although the body carries an error
field. -/
theorem C4_empty_error_counterexample :
    emptyErrorBody.error.isSome = true ∧
    (handleSubmit readyState (FetchOutcome.response true 200 emptyErrorBody)).status =
      Status.done ∧
    (handleSubmit readyState (FetchOutcome.response true 200 emptyErrorBody)).result =
      some sampleResult ∧
    renderPage (handleSubmit readyState (FetchOutcome.response true 200 emptyErrorBody)) =
      some (renderResults sampleResult) := by
  refine ⟨rfl, ?_, ?_, ?_⟩ <;> rfl

/-- The fallback failure message is never the empty string. -/
theorem fallbackMsg_ne_empty (code : ℕ) : fallbackMsg code ≠ "" := by
  intro hcb
  have hlen := congrArg String.length hcb
  rw [fallbackMsg, String.length_append, String.length_append] at hlen
  have h6 : ("请求失败 (" : String).length = 6 := rfl
  have h1 : (")" : String).length = 1 := rfl
  have h0 : ("" : String).length = 0 := rfl
  omega

/-- The message shown for a failed response is never the empty string. -/
theorem errorText_ne_empty (body : RespBody) (code : ℕ) : errorText body code ≠ "" := by
  obtain ⟨berr, bpay⟩ := body
  cases berr with
  | none => exact fallbackMsg_ne_empty code
  | some e =>
    by_cases hee : e = ""
    · show (if e = "" then fallbackMsg code else e) ≠ ""
      rw [if_pos hee]
      exact fallbackMsg_ne_empty code
    · show (if e = "" then fallbackMsg code else e) ≠ ""
      rw [if_neg hee]
      exact hee

/-- Claim C4 as amended: for every request whose fetch throws, or whose response has a
non-ok status, or whose body carries a non-empty `error` value, the client sets an
error status with a non-empty message, the result state stays null, and no results
block is rendered. -/
theorem C4_failure_no_partial (s : UIState) (o : FetchOutcome)
    (hf : s.file.isSome = true) (hs : s.startMonth ≠ "") (he : s.endMonth ≠ "")
    (hfail : (∃ msg, o = FetchOutcome.throws msg) ∨
      (∃ code body, o = FetchOutcome.response false code body) ∨
      (∃ ok code body e, o = FetchOutcome.response ok code body ∧
        body.error = some e ∧ e ≠ "")) :
    (handleSubmit s o).status = Status.error ∧
    (handleSubmit s o).result = none ∧
    (handleSubmit s o).errorMsg ≠ "" ∧
    renderPage (handleSubmit s o) = none := by
  obtain ⟨f, hf'⟩ := Option.isSome_iff_exists.1 hf
  have hmonth : ¬ (s.startMonth = "" ∨ s.endMonth = "") := by
    rintro (h | h) <;> [exact hs h; exact he h]
  rcases hfail with ⟨msg, rfl⟩ | ⟨code, body, rfl⟩ | ⟨ok, code, body, e, rfl, hbe, hne⟩
  · have hstep : handleSubmit s (FetchOutcome.throws msg) =
        { s with status := Status.error, result := none,
                 errorMsg := "网络错误，请稍后重试。" ++ msg } := by
      rw [handleSubmit]
      rw [hf']
      simp [hmonth]
    rw [hstep]
    refine ⟨rfl, rfl, ?_, rfl⟩
    intro hcontra
    have hlen := congrArg String.length hcontra
    rw [String.length_append] at hlen
    have h11 : ("网络错误，请稍后重试。" : String).length = 11 := rfl
    have h0 : ("" : String).length = 0 := rfl
    omega
  · have hcond : (!false || errTruthy body) = true := rfl
    have hstep : handleSubmit s (FetchOutcome.response false code body) =
        { s with status := Status.error, result := none,
                 errorMsg := errorText body code } := by
      rw [handleSubmit]
      rw [hf']
      simp [hmonth, hcond]
    rw [hstep]
    exact ⟨rfl, rfl, errorText_ne_empty body code, rfl⟩
  · have htruthy : errTruthy body = true := by
      unfold errTruthy
      rw [hbe]
      simp [hne]
    have hcond : (!ok || errTruthy body) = true := by
      rw [htruthy]
      cases ok <;> rfl
    have hstep : handleSubmit s (FetchOutcome.response ok code body) =
        { s with status := Status.error, result := none,
                 errorMsg := errorText body code } := by
      rw [handleSubmit]
      rw [hf']
      simp [hmonth, hcond]
    rw [hstep]
    exact ⟨rfl, rfl, errorText_ne_empty body code, rfl⟩

/-- Witness for the amended C4 at a non-ok 500 response. -/
theorem C4_failure_no_partial_witness :
    readyState.file.isSome = true ∧ readyState.startMonth ≠ "" ∧ readyState.endMonth ≠ "" ∧
    ((handleSubmit readyState (FetchOutcome.response false 500 plainBody)).status =
        Status.error ∧
      (handleSubmit readyState (FetchOutcome.response false 500 plainBody)).result = none ∧
      (handleSubmit readyState (FetchOutcome.response false 500 plainBody)).errorMsg ≠ "" ∧
      renderPage (handleSubmit readyState (FetchOutcome.response false 500 plainBody)) =
        none) := by
  refine ⟨rfl, by decide, by decide, ?_⟩
  exact C4_failure_no_partial readyState (FetchOutcome.response false 500 plainBody)
    rfl (by decide) (by decide) (Or.inr (Or.inl ⟨500, plainBody, rfl⟩))

/-- Claim C1: every successful calculation response the client consumes yields a
stored `CalcResult` carrying `contract_count`, `total_receivable`, `total_income`,
the `summary` array, and the three workbook byte streams keyed lease, single and
income, all of which the results block renders. -/
theorem C1_success_response_shape (s : UIState) (ok : Bool) (code : ℕ) (body : RespBody)
    (hf : s.file.isSome = true) (hs : s.startMonth ≠ "") (he : s.endMonth ≠ "")
    (hok : ok = true) (herr : errTruthy body = false) :
    (handleSubmit s (FetchOutcome.response ok code body)).status = Status.done ∧
    (handleSubmit s (FetchOutcome.response ok code body)).result = some body.payload ∧
    renderPage (handleSubmit s (FetchOutcome.response ok code body)) =
      some (renderResults body.payload) ∧
    (renderResults body.payload).cards.contractCountText =
      toString body.payload.contract_count ∧
    (renderResults body.payload).cards.totalReceivableText =
      formatMoney body.payload.total_receivable ∧
    (renderResults body.payload).cards.totalIncomeText =
      formatMoney body.payload.total_income ∧
    (renderResults body.payload).downloads =
      [(body.payload.files.lease, "lease.xlsx"), (body.payload.files.single, "single.xlsx"),
        (body.payload.files.income, "income.xlsx")] ∧
    body.payload =
      { summary := body.payload.summary
        total_receivable := body.payload.total_receivable
        total_income := body.payload.total_income
        contract_count := body.payload.contract_count
        files := { lease := body.payload.files.lease, single := body.payload.files.single,
                   income := body.payload.files.income } } := by
  obtain ⟨f, hf'⟩ := Option.isSome_iff_exists.1 hf
  have hmonth : ¬ (s.startMonth = "" ∨ s.endMonth = "") := by
    rintro (h | h) <;> [exact hs h; exact he h]
  subst hok
  have hstep : handleSubmit s (FetchOutcome.response true code body) =
      { s with status := Status.done, result := some body.payload, errorMsg := "" } := by
    rw [handleSubmit]
    rw [hf']
    simp [hmonth, herr]
  rw [hstep]
  exact ⟨rfl, rfl, rfl, rfl, rfl, rfl, rfl, rfl⟩

/-- Witness for C1 at an ok 200 response with no error member. -/
theorem C1_success_response_shape_witness :
    readyState.file.isSome = true ∧ readyState.startMonth ≠ "" ∧ readyState.endMonth ≠ "" ∧
    (true = true) ∧ errTruthy plainBody = false ∧
    ((handleSubmit readyState (FetchOutcome.response true 200 plainBody)).status =
        Status.done ∧
      (handleSubmit readyState (FetchOutcome.response true 200 plainBody)).result =
        some plainBody.payload ∧
      renderPage (handleSubmit readyState (FetchOutcome.response true 200 plainBody)) =
        some (renderResults plainBody.payload)) := by
  have h := C1_success_response_shape readyState true 200 plainBody
    rfl (by decide) (by decide) rfl rfl
  exact ⟨rfl, by decide, by decide, rfl, rfl, h.1, h.2.1, h.2.2.1⟩

/-- Claim C3 (spec-modelled): the income total over the full lease term depends only
on the delivery date, the expiry date, and the rent amounts — two contracts differing
only in `free_rent_days` have the same total income, since income amortization
includes free-rent days. -/
theorem C3_income_invariant_free_rent (c1 c2 : Contract)
    (hd : c1.delivery = c2.delivery) (he : c1.expiry = c2.expiry)
    (hr : c1.rents = c2.rents) :
    totalIncomeFullTerm c1 = totalIncomeFullTerm c2 := by
  unfold totalIncomeFullTerm dailyIncomeRate totalContractValue totalLeaseDays
    dailyIncome contractYear rentForYear
  rw [hd, he, hr]

/-- Witness for C3: the two-year sample contract with 0 versus 30 free-rent days. -/
theorem C3_income_invariant_free_rent_witness :
    contractA.delivery = contractB.delivery ∧
    contractA.expiry = contractB.expiry ∧
    contractA.rents = contractB.rents ∧
    contractA.free_rent_days ≠ contractB.free_rent_days ∧
    totalIncomeFullTerm contractA = totalIncomeFullTerm contractB :=
  ⟨rfl, rfl, rfl, by decide,
    C3_income_invariant_free_rent contractA contractB rfl rfl rfl⟩

/-- Claim C6: a summary row consists of exactly the seven `ContractSummary` fields,
and the client renders all seven columns for every row of the summary array in input
order — the rendered table is the element-wise image of the rows under `renderRow`,
and for a result with a non-empty summary the table is displayed. -/
theorem C6_summary_rows (row : ContractSummary) (rows : List ContractSummary)
    (r : CalcResult) (hne : r.summary ≠ []) :
    (row = { customer := row.customer, merchant_id := row.merchant_id,
             receivable := row.receivable, income := row.income,
             bank_matched := row.bank_matched, invoice_matched := row.invoice_matched,
             notes := row.notes }) ∧
    renderRow row =
      { customer := row.customer, merchant_id := row.merchant_id,
        receivable := formatMoney row.receivable, income := formatMoney row.income,
        bank_matched := formatMoney row.bank_matched,
        invoice_matched := formatMoney row.invoice_matched,
        notes := row.notes } ∧
    renderSummaryTable rows = rows.map renderRow ∧
    (renderSummaryTable rows).length = rows.length ∧
    (∀ i : ℕ, (renderSummaryTable rows)[i]? = (rows[i]?).map renderRow) ∧
    (renderResults r).table = some (renderSummaryTable r.summary) := by
  refine ⟨rfl, ?_, rfl, ?_, ?_, ?_⟩
  · by_cases h : row.notes = "" <;> simp [renderRow, h]
  · simp [renderSummaryTable]
  · intro i
    simp [renderSummaryTable, List.getElem?_map]
  · have hpos : 0 < r.summary.length := List.length_pos.mpr hne
    simp [renderResults, hpos]

/-- Witness for C6 at the one-row sample result. -/
theorem C6_summary_rows_witness :
    sampleResultWithRow.summary ≠ [] ∧
    (renderRow sampleRow =
      { customer := sampleRow.customer, merchant_id := sampleRow.merchant_id,
        receivable := formatMoney sampleRow.receivable,
        income := formatMoney sampleRow.income,
        bank_matched := formatMoney sampleRow.bank_matched,
        invoice_matched := formatMoney sampleRow.invoice_matched,
        notes := sampleRow.notes } ∧
      (renderResults sampleResultWithRow).table =
        some (renderSummaryTable sampleResultWithRow.summary)) := by
  have hne : sampleResultWithRow.summary ≠ [] := by
    simp [sampleResultWithRow, sampleResult]
  have h := C6_summary_rows sampleRow [sampleRow] sampleResultWithRow hne
  exact ⟨hne, h.2.1, h.2.2.2.2.2⟩

/-- Claim C7: the three report workbooks are delivered as three independently
downloadable base64 streams — lease, single and income, each saved under its own
file name — and `downloadBase64` turns a decodable base64 string into exactly the
byte sequence whose i-th byte is the character code of the i-th decoded character,
wrapped in an xlsx-typed blob. -/
theorem C7_downloads (r : CalcResult) (b64 fn : String) (binary : String)
    (hdec : atob b64 = some binary) :
    (renderResults r).downloads =
      [(r.files.lease, "lease.xlsx"), (r.files.single, "single.xlsx"),
        (r.files.income, "income.xlsx")] ∧
    ((renderResults r).downloads).length = 3 ∧
    downloadBase64 b64 fn =
      some ({ bytes := binary.data.map Char.toNat, mime := xlsxMime }, fn) ∧
    (∀ i : ℕ, (binary.data.map Char.toNat)[i]? = (binary.data[i]?).map Char.toNat) := by
  refine ⟨rfl, rfl, ?_, ?_⟩
  · rw [downloadBase64]
    rw [hdec]
  · intro i
    simp [List.getElem?_map]

/-- Witness for C7 at the base64 string QUJD, which decodes to the bytes of ABC. -/
theorem C7_downloads_witness :
    atob "QUJD" = some "ABC" ∧
    (downloadBase64 "QUJD" "lease.xlsx" =
        some ({ bytes := [65, 66, 67], mime := xlsxMime }, "lease.xlsx") ∧
      (renderResults sampleResult).downloads =
        [(sampleResult.files.lease, "lease.xlsx"), (sampleResult.files.single, "single.xlsx"),
          (sampleResult.files.income, "income.xlsx")]) := by
  have hdec : atob "QUJD" = some "ABC" := by decide
  have h := C7_downloads sampleResult "QUJD" "lease.xlsx" "ABC" hdec
  exact ⟨hdec, h.2.2.1, h.1⟩

end LeaseWeb
